import Mathlib

/-!
Verification development for the form-filler browser extension
(field detection, classification, value mapping and fill engine).

The JavaScript sources are shallowly embedded:
* DOM controls become the `Element` structure; the mutable `value` /
  `checked` / selection state lives inside the structure and every fill
  operation returns the updated element next to its Boolean outcome.
* JS numbers are idealised as exact rationals (`ℚ`); machine floats and
  NaN are modelled with `Option ℚ` (`none` = NaN) where the source can
  produce them.
* Fallible code is embedded in `Except String`; the JS `try`/`catch`
  blocks become the `exTry` combinator.
* Browser built-ins (`Date.UTC`, `getUTCDay`, …) are modelled by the
  proleptic-Gregorian day-number arithmetic that the ECMAScript
  specification prescribes for them, with the local time-zone offset
  taken to be zero.
-/

namespace FormExt

/-- Calendar date with time-of-day components, modelling a (valid) JS
`Date` by its civil components (month is 1-based here; the JS 0-based
`getMonth()` is converted at the use sites). -/
structure JSDate where
  year : Int
  month : Int
  day : Int
  hour : Int := 0
  minute : Int := 0
deriving DecidableEq

/-- JS values that flow into the fill engine.  Arrays are represented at
the call sites that use them (`fillSelectMultiple`) as explicit lists. -/
inductive JSVal where
  | str (s : String)
  | num (q : ℚ)
  | bool (b : Bool)
  | date (d : JSDate)
deriving DecidableEq

/-- The `step` attribute of a numeric input: absent (`''`), the literal
string `'any'`, or a numeric value. -/
inductive StepAttr where
  | absent
  | any
  | val (q : ℚ)
deriving DecidableEq

/-- One `<option>` of a select control. -/
structure OptionEl where
  value : String
  text : String
  selected : Bool := false
deriving DecidableEq

/-- One radio control of a same-name radio group (its resolved label text
is precomputed, like `Element.label` below). -/
structure RadioEl where
  value : String
  label : String
  checked : Bool := false
deriving DecidableEq

/-- A DOM form control, carrying the attributes the pipeline reads and
the mutable state the fill engine writes.

* `label` models the result of `getFieldLabel` (label[for] /
  wrapping label / aria attributes); that lookup is a pure read of the
  surrounding document, so it is precomputed here.
* `min`/`max` are the parsed numeric attribute values (`none` models the
  empty attribute; `Number('')`-style coercions are applied at use sites).
* `ancestorClassName` lists the `className` of each ancestor strictly
  below `document.body`, for the CAPTCHA-container walk.
* `radioGroup` models `document.querySelectorAll` over the control's
  radio group, in document order.
* An unset `value` is the empty string, as in the DOM. -/
structure Element where
  tag : String := "input"
  type : String := "text"
  name : String := ""
  id : String := ""
  className : String := ""
  ancestorClassName : List String := []
  placeholder : String := ""
  required : Bool := false
  label : String := ""
  disabled : Bool := false
  readOnly : Bool := false
  offsetParentNull : Bool := false
  styleDisplay : String := ""
  styleVisibility : String := ""
  styleOpacity : String := ""
  computedDisplay : String := "block"
  computedVisibility : String := "visible"
  offsetWidth : Int := 100
  offsetHeight : Int := 20
  min : Option ℚ := none
  max : Option ℚ := none
  step : StepAttr := .absent
  maxLength : Int := -1
  options : List OptionEl := []
  selectedIndex : Int := -1
  multiple : Bool := false
  radioGroup : List RadioEl := []
  value : String := ""
  checked : Bool := false
deriving DecidableEq

/-! ### Small string helpers (JS built-ins) -/

/-- Does `pat` occur at the very front of `l`? -/
def charsLead : List Char → List Char → Bool
  | [], _ => true
  | _ :: _, [] => false
  | a :: as, b :: bs => a == b && charsLead as bs

/-- Does `pat` occur anywhere inside `l`?  Models `String.includes`. -/
def charsContain (pat : List Char) : List Char → Bool
  | [] => charsLead pat []
  | c :: rest => charsLead pat (c :: rest) || charsContain pat rest

/-- JS `s.includes(pat)`. -/
def strContains (s pat : String) : Bool :=
  charsContain pat.toList s.toList

/-- JS `s.toLowerCase()` (character-wise lower-casing). -/
def strLower (s : String) : String :=
  String.mk (s.toList.map Char.toLower)

/-- Split a character list on every occurrence of a separator. -/
def splitCharAux (sep : Char) : List Char → List Char → List (List Char)
  | [], acc => [acc.reverse]
  | c :: rest, acc =>
      if c == sep then acc.reverse :: splitCharAux sep rest []
      else splitCharAux sep rest (c :: acc)

/-- JS `s.split(sep)` for a one-character separator. -/
def strSplitChar (s : String) (sep : Char) : List String :=
  (splitCharAux sep s.toList []).map String.mk

/-- Strip leading and trailing whitespace. -/
def strTrim (s : String) : String :=
  String.mk
    (((s.toList.dropWhile Char.isWhitespace).reverse.dropWhile Char.isWhitespace).reverse)

/-- Truncation toward zero, as JS float-to-int operations behave. -/
def ratTrunc (q : ℚ) : ℤ :=
  if q < 0 then Int.ceil q else Int.floor q

/-- JS `%` on numbers: remainder with the sign of the dividend
(`a - b * trunc(a / b)`), idealised over exact rationals.  The JS
`x % 0 = NaN` case is handled explicitly at the use sites. -/
def jsMod (a b : ℚ) : ℚ :=
  a - b * (ratTrunc (a / b) : ℚ)

/-- Decimal rendering of a JS number (`Number.prototype.toString`).
Exact for integral values, which are the only ones the verified claims
exercise; the non-integral branch is a placeholder for JS float
printing, which is not modelled. -/
def jsNumToString (q : ℚ) : String :=
  if q.den = 1 then toString q.num else toString q

/-- Milliseconds per day, hour, minute (ECMAScript time values). -/
def msPerDay : Int := 86400000

/-- Day number of a civil date (days since 1970-01-01), the
proleptic-Gregorian arithmetic behind `Date.UTC`. -/
def daysFromCivil (y m d : Int) : Int :=
  let y2 : Int := if m ≤ 2 then y - 1 else y
  let era : Int := Int.fdiv y2 400
  let yoe : Int := y2 - era * 400
  let mp : Int := if m > 2 then m - 3 else m + 9
  let doy : Int := (153 * mp + 2) / 5 + d - 1
  let doe : Int := yoe * 365 + yoe / 4 - yoe / 100 + doy
  era * 146097 + doe - 719468

/-- Inverse of `daysFromCivil`: the civil `(year, month, day)` of a day
number, as `getUTCFullYear`/`getUTCMonth`/`getUTCDate` compute it. -/
def civilFromDays (z0 : Int) : Int × Int × Int :=
  let z : Int := z0 + 719468
  let era : Int := Int.fdiv z 146097
  let doe : Int := z - era * 146097
  let yoe : Int := (doe - doe / 1460 + doe / 36524 - doe / 146096) / 365
  let y : Int := yoe + era * 400
  let doy : Int := doe - (365 * yoe + yoe / 4 - yoe / 100)
  let mp : Int := (5 * doy + 2) / 153
  let d : Int := doy - (153 * mp + 2) / 5 + 1
  let m : Int := if mp < 10 then mp + 3 else mp - 9
  (if m ≤ 2 then y + 1 else y, m, d)

/-- The ECMAScript time value (milliseconds since the epoch) of a
modelled `Date`. -/
def jsTimeValue (d : JSDate) : Int :=
  daysFromCivil d.year d.month d.day * msPerDay
    + d.hour * 3600000 + d.minute * 60000

/-- String conversion `String(value)`.  Date objects render through
their ISO date in this model (the locale-dependent JS date string is
not modelled; no verified claim reads it). -/
def jsToString (v : JSVal) : String :=
  match v with
  | .str s => s
  | .num q => jsNumToString q
  | .bool b => if b then "true" else "false"
  | .date d =>
      toString d.year ++ "-" ++ toString d.month ++ "-" ++ toString d.day

/-- Digit-string parsing helper for `Number(string)`. -/
def digitsToNat : List Char → Option Nat
  | [] => none
  | cs => cs.foldl (fun acc c =>
      match acc with
      | none => none
      | some n => if c.isDigit then some (n * 10 + (c.toNat - 48)) else none)
      (some 0)

/-- `Number(string)` on decimal literals: trimmed input, optional sign,
digits with an optional fractional part; the empty string coerces to 0;
anything else is NaN (`none`).  (Hex/exponent literals are out of the
modelled fragment; no verified claim uses them.) -/
def jsStringToNumber (s : String) : Option ℚ :=
  let t := strTrim s
  if t = "" then some 0
  else
    let (sign, body) : ℚ × List Char :=
      match t.toList with
      | '-' :: rest => (-1, rest)
      | '+' :: rest => (1, rest)
      | l => (1, l)
    let parts := body.splitOn '.'
    match parts with
    | [ip] => (digitsToNat ip).map (fun n => sign * n)
    | [ip, fp] =>
        match digitsToNat ip, digitsToNat fp with
        | some n, some f => some (sign * (n + (f : ℚ) / ((10 : ℚ) ^ fp.length)))
        | _, _ => none
    | _ => none

/-- `Number(value)`: numeric coercion; `none` models NaN. -/
def jsToNumber (v : JSVal) : Option ℚ :=
  match v with
  | .num q => some q
  | .str s => jsStringToNumber s
  | .bool b => some (if b then 1 else 0)
  | .date d => some ((jsTimeValue d : ℚ))

/-- Strict equality `s === v` between a DOM string and a JS value. -/
def jsStrictEqStr (s : String) (v : JSVal) : Bool :=
  match v with
  | .str t => s == t
  | _ => false

/-! ### Fill engine (`FormFiller`), per-kind write strategies -/

/-- `FormFiller.fillTextInput`. -/
def fillTextInput (e : Element) (v : JSVal) : Bool × Element :=
  (true, { e with value := jsToString v })

/-- `FormFiller.fillPasswordInput` (the preference gate lives in the
field mapper; the write itself is unconditional). -/
def fillPasswordInput (e : Element) (v : JSVal) : Bool × Element :=
  (true, { e with value := jsToString v })

/-- The `field.min !== '' && numValue < Number(field.min)` rejection. -/
def minRejects : Option ℚ → ℚ → Bool
  | none, _ => false
  | some m, n => n < m

/-- The `field.max !== '' && numValue > Number(field.max)` rejection. -/
def maxRejects : Option ℚ → ℚ → Bool
  | none, _ => false
  | some mx, n => mx < n

/-- The step-alignment rejection `(numValue - min) % step !== 0`, with
base `Number(field.min) || 0`.  A zero step makes the JS remainder NaN,
which compares `!== 0`, hence always rejects. -/
def stepRejects : StepAttr → Option ℚ → ℚ → Bool
  | .absent, _, _ => false
  | .any, _, _ => false
  | .val s, mn, n => s == 0 || jsMod (n - mn.getD 0) s != 0

/-- `FormFiller.fillNumberInput`: reject NaN, out-of-range and
step-misaligned values, otherwise write the decimal string. -/
def fillNumberInput (e : Element) (v : JSVal) : Bool × Element :=
  match jsToNumber v with
  | none => (false, e)
  | some n =>
      if minRejects e.min n then (false, e)
      else if maxRejects e.max n then (false, e)
      else if stepRejects e.step e.min n then (false, e)
      else (true, { e with value := jsNumToString n })

/-- Left-pad a (nonnegative) integer to two digits. -/
def pad2 (n : Int) : String :=
  if n < 10 then "0" ++ toString n else toString n

/-- Left-pad a year to four digits (`toISOString` rendering). -/
def pad4 (n : Int) : String :=
  if n < 10 then "000" ++ toString n
  else if n < 100 then "00" ++ toString n
  else if n < 1000 then "0" ++ toString n
  else toString n

/-- `toISOString().split('T')[0]`. -/
def isoDatePart (d : JSDate) : String :=
  pad4 d.year ++ "-" ++ pad2 d.month ++ "-" ++ pad2 d.day

/-- ISO weekday number 1..7 (Monday=1) of a day number; day 0
(1970-01-01) is a Thursday, so `getUTCDay()` is `(n + 4) % 7`. -/
def isoDayNum (n : Int) : Int :=
  let wd := (n + 4) % 7
  if wd = 0 then 7 else wd

/-- The `d.setUTCDate(d.getUTCDate() + 4 - dayNum)` shift: the Thursday
of the ISO week containing day number `n`. -/
def thursdayOf (n : Int) : Int :=
  n + 4 - isoDayNum n

/-- `Date.UTC(d.getUTCFullYear(), 0, 1)`: January 1 of the civil year of
day number `t`, as a day number. -/
def yearStartOf (t : Int) : Int :=
  daysFromCivil (civilFromDays t).1 1 1

/-- `FormFiller.getWeekNumber`: shift the date to the Thursday of its
ISO week, then count weeks (`Math.ceil` of day difference over 7) from
January 1 of that Thursday's year. -/
def getWeekNumber (dt : JSDate) : Int :=
  let n := daysFromCivil dt.year dt.month dt.day
  let t := thursdayOf n
  let ys := yearStartOf t
  Int.ceil (((t - ys + 1 : Int) : ℚ) / 7)

/-- Parse a JS-acceptable ISO calendar-date string `YYYY-MM-DD`
(`new Date(string)`; other date-string formats are outside the modelled
fragment, and parse failure models an Invalid Date). -/
def parseISODate (s : String) : Option JSDate :=
  match strSplitChar s '-' with
  | [ys, ms, ds] =>
      match digitsToNat ys.toList, digitsToNat ms.toList, digitsToNat ds.toList with
      | some y, some m, some d =>
          if 1 ≤ m ∧ m ≤ 12 ∧ 1 ≤ d ∧ d ≤ 31 then
            some { year := (y : Int), month := (m : Int), day := (d : Int) }
          else none
      | _, _, _ => none
  | _ => none

/-- `FormFiller.fillDateTimeInput`: accept a Date or a parseable date
string, format per sub-kind, reject otherwise. -/
def fillDateTimeInput (e : Element) (ty : String) (v : JSVal) : Bool × Element :=
  let fmt : JSDate → Bool × Element := fun dt =>
    if ty = "date" then (true, { e with value := isoDatePart dt })
    else if ty = "datetime-local" then
      (true, { e with value := isoDatePart dt ++ "T" ++ pad2 dt.hour ++ ":" ++ pad2 dt.minute })
    else if ty = "time" then
      (true, { e with value := pad2 dt.hour ++ ":" ++ pad2 dt.minute })
    else if ty = "month" then
      (true, { e with value := pad4 dt.year ++ "-" ++ pad2 dt.month })
    else if ty = "week" then
      (true, { e with value := toString dt.year ++ "-W" ++ pad2 (getWeekNumber dt) })
    else (false, e)
  match v with
  | .date dt => fmt dt
  | .str s =>
      match parseISODate s with
      | some dt => fmt dt
      | none => (false, e)
  | _ => (false, e)

/-- Hexadecimal digit test for the color regex `[0-9A-Fa-f]`. -/
def isHexChar (c : Char) : Bool :=
  c.isDigit || ('a' ≤ c && c ≤ 'f') || ('A' ≤ c && c ≤ 'F')

/-- The test `value.match(/^#[0-9A-Fa-f]{6}$/)`. -/
def isHexColor (s : String) : Bool :=
  match s.toList with
  | '#' :: rest => rest.length == 6 && rest.all isHexChar
  | _ => false

/-- `FormFiller.fillColorInput`: only a 6-digit hex string is accepted,
and it is written lower-cased. -/
def fillColorInput (e : Element) (v : JSVal) : Bool × Element :=
  match v with
  | .str s => if isHexColor s then (true, { e with value := strLower s }) else (false, e)
  | _ => (false, e)

/-- `FormFiller.fillTextarea`: write the string, truncating to
`maxLength` when that constraint is positive. -/
def fillTextarea (e : Element) (v : JSVal) : Bool × Element :=
  let s := jsToString v
  let s := if e.maxLength > 0 ∧ (s.length : Int) > e.maxLength then s.take e.maxLength.toNat else s
  (true, { e with value := s })

/-- `FormFiller.findMatchingOption`: exact value match, then exact text
match, then case-insensitive text containment; first match wins.
Returns the matching index. -/
def findMatchingOption (opts : List OptionEl) (v : JSVal) : Option Nat :=
  match opts.findIdx? (fun o => jsStrictEqStr o.value v) with
  | some i => some i
  | none =>
      match opts.findIdx? (fun o => jsStrictEqStr o.text v) with
      | some i => some i
      | none =>
          let vs := strLower (jsToString v)
          opts.findIdx? (fun o => strContains (strLower o.text) vs)

/-- `FormFiller.fillSelectOne`. -/
def fillSelectOne (e : Element) (v : JSVal) : Bool × Element :=
  match findMatchingOption e.options v with
  | some i => (true, { e with selectedIndex := (i : Int) })
  | none => (false, e)

/-- Set the `selected` flag of the option at index `i`. -/
def selectAt (opts : List OptionEl) (i : Nat) : List OptionEl :=
  opts.mapIdx (fun j o => if j = i then { o with selected := true } else o)

/-- `FormFiller.fillSelectMultiple`: clear the selection, then apply the
three-tier match for each requested value; succeed if any matched.
(Non-array JS arguments are wrapped in a one-element list at the
dispatch site, as in the source.) -/
def fillSelectMultiple (e : Element) (vs : List JSVal) : Bool × Element :=
  let cleared := e.options.map (fun o => { o with selected := false })
  let step := fun (acc : List OptionEl × Bool) (v : JSVal) =>
    match findMatchingOption acc.1 v with
    | some i => (selectAt acc.1 i, true)
    | none => acc
  let (opts, any) := vs.foldl step (cleared, false)
  (any, { e with options := opts })

/-- `FormFiller.shouldCheckBox`: positive vocabulary, else comparison
with the control's own value or label text (case-insensitive). -/
def shouldCheckBox (e : Element) (v : JSVal) : Bool :=
  let label := strLower e.label
  let fieldValue := strLower e.value
  let checkValue := strLower (jsToString v)
  if ["true", "yes", "on", "1", "checked", "selected"].contains checkValue then true
  else if fieldValue == checkValue || strContains label checkValue then true
  else false

/-- `FormFiller.fillCheckbox`: booleans set the state directly,
otherwise `shouldCheckBox` decides; always reports success. -/
def fillCheckbox (e : Element) (v : JSVal) : Bool × Element :=
  let shouldCheck :=
    match v with
    | .bool b => b
    | _ => shouldCheckBox e v
  (true, { e with checked := shouldCheck })

/-- Check the first group member whose value matches strictly or whose
label contains the requested value (case-insensitive). -/
def fillRadioGroup (v : JSVal) : List RadioEl → Option (List RadioEl)
  | [] => none
  | r :: rs =>
      if jsStrictEqStr r.value v
          || strContains (strLower r.label) (strLower (jsToString v)) then
        some ({ r with checked := true } :: rs)
      else
        match fillRadioGroup v rs with
        | some rs2 => some (r :: rs2)
        | none => none

/-- `FormFiller.fillRadio` over the modelled same-name group. -/
def fillRadio (e : Element) (v : JSVal) : Bool × Element :=
  match fillRadioGroup v e.radioGroup with
  | some g => (true, { e with radioGroup := g })
  | none => (false, e)

/-- `FormFiller.fillByType`: dispatch on the detected control kind. -/
def fillByType (e : Element) (ty : String) (v : JSVal) : Bool × Element :=
  if ty = "text" ∨ ty = "email" ∨ ty = "tel" ∨ ty = "url" ∨ ty = "search" then
    fillTextInput e v
  else if ty = "password" then fillPasswordInput e v
  else if ty = "number" ∨ ty = "range" then fillNumberInput e v
  else if ty = "date" ∨ ty = "datetime-local" ∨ ty = "time" ∨ ty = "month" ∨ ty = "week" then
    fillDateTimeInput e ty v
  else if ty = "color" then fillColorInput e v
  else if ty = "textarea" then fillTextarea e v
  else if ty = "select-one" then fillSelectOne e v
  else if ty = "select-multiple" then fillSelectMultiple e [v]
  else if ty = "checkbox" then fillCheckbox e v
  else if ty = "radio" then fillRadio e v
  else (false, e)

/-! ### Field detector (`FormDetector`) -/

/-- JS `\w` (ASCII letters, digits, underscore), for `\b` boundaries. -/
def wordChar (c : Char) : Bool :=
  c.isAlpha || c.isDigit || c == '_'

/-- One token of a classifier pattern: a literal character, or the
regex `.` wildcard. -/
def patToks (p : String) : List (Option Char) :=
  p.toList.map (fun c => if c = '.' then none else some c)

/-- Consume a pattern at the front of the text; return the rest of the
text on success. -/
def tokConsume : List (Option Char) → List Char → Option (List Char)
  | [], rest => some rest
  | _ :: _, [] => none
  | some p :: ps, c :: cs => if p == c then tokConsume ps cs else none
  | none :: ps, _ :: cs => tokConsume ps cs

/-- Does the word-boundary-delimited pattern match starting exactly at
the head of `text` (with `prev` the character before it)?  All source
patterns begin and end with `\w` characters, so the `\b` tests reduce to
the neighbour checks below. -/
def bAt (pat : List (Option Char)) (prev : Option Char) (text : List Char) : Bool :=
  (match prev with | none => true | some p => !wordChar p) &&
    (match tokConsume pat text with
     | none => false
     | some rest =>
         match rest with
         | [] => true
         | c :: _ => !wordChar c)

/-- Scan the text for a boundary-delimited match of the pattern. -/
def bScan (pat : List (Option Char)) : Option Char → List Char → Bool
  | _, [] => false
  | prev, c :: rest => bAt pat prev (c :: rest) || bScan pat (some c) rest

/-- The test `allText.match(/\b(a1|a2|…)\b/) !== null`. -/
def bmatch (alts : List String) (text : String) : Bool :=
  alts.any (fun a => bScan (patToks a) none text.toList)

/-- The concatenated lower-cased search text
`` `${name} ${id} ${placeholder} ${className} ${label}` ``. -/
def allTextOf (e : Element) : String :=
  strLower (e.name ++ " " ++ e.id ++ " " ++ e.placeholder ++ " " ++ e.className ++ " " ++ e.label)

/-- Classifier rule conditions, one per textual pattern of
`FormDetector.classifyField`, in source order. -/
def ruleFirstName (t : String) : Bool :=
  bmatch ["firstname", "fname", "first.name", "given.name", "prénom", "prenom"] t

/-- Last-name vocabulary. -/
def ruleLastName (t : String) : Bool :=
  bmatch ["lastname", "lname", "last.name", "surname", "family.name", "nom", "nom.famille"] t

/-- Full-name vocabulary (positive part). -/
def ruleFullNamePos (t : String) : Bool :=
  bmatch ["fullname", "full.name", "name", "nom.complet"] t

/-- Full-name exclusion vocabulary. -/
def ruleFullNameNeg (t : String) : Bool :=
  bmatch ["user", "company", "file", "project"] t

/-- Email vocabulary (textual disjunct of the email rule). -/
def ruleEmailText (t : String) : Bool :=
  bmatch ["email", "e.mail", "mail", "courriel"] t

/-- Phone vocabulary. -/
def rulePhone (t : String) : Bool :=
  bmatch ["phone", "tel", "telephone", "mobile", "cell", "fax", "téléphone"] t

/-- Username vocabulary. -/
def ruleUsername (t : String) : Bool :=
  bmatch ["username", "user.name", "login", "account", "utilisateur"] t

/-- Password vocabulary (textual disjunct of the password rule). -/
def rulePasswordText (t : String) : Bool :=
  bmatch ["password", "pass", "pwd", "mot.de.passe"] t

/-- Street-address vocabulary. -/
def ruleAddress (t : String) : Bool :=
  bmatch ["address", "street", "addr", "address1", "address2", "adresse", "rue"] t

/-- Secondary-address vocabulary. -/
def ruleAddress2 (t : String) : Bool :=
  bmatch ["address2", "apt", "apartment", "suite", "unit", "appartement"] t

/-- City vocabulary. -/
def ruleCity (t : String) : Bool :=
  bmatch ["city", "town", "locality", "ville", "localité"] t

/-- State/province vocabulary. -/
def ruleState (t : String) : Bool :=
  bmatch ["state", "province", "region", "county", "état", "région"] t

/-- Postal-code vocabulary. -/
def ruleZip (t : String) : Bool :=
  bmatch ["zip", "postal", "postcode", "zipcode", "postalcode", "code.postal"] t

/-- Country vocabulary. -/
def ruleCountry (t : String) : Bool :=
  bmatch ["country", "nation", "pays"] t

/-- Company vocabulary. -/
def ruleCompany (t : String) : Bool :=
  bmatch ["company", "organization", "employer", "business", "corp", "entreprise", "société"] t

/-- Job-title vocabulary. -/
def ruleJob (t : String) : Bool :=
  bmatch ["job", "title", "position", "occupation", "role", "poste", "titre"] t

/-- Date vocabulary (textual disjunct of the date rule). -/
def ruleDateText (t : String) : Bool :=
  bmatch ["date", "birth", "dob", "birthday", "naissance"] t

/-- Birth-date refinement vocabulary. -/
def ruleBirth (t : String) : Bool :=
  bmatch ["birth", "dob", "birthday", "naissance"] t

/-- Time vocabulary (textual disjunct of the time rule). -/
def ruleTimeText (t : String) : Bool :=
  bmatch ["time", "hour", "minute", "heure", "temps"] t

/-- Number vocabulary (textual disjunct of the number rule). -/
def ruleNumberText (t : String) : Bool :=
  bmatch ["age", "number", "num", "quantity", "amount", "nombre", "quantité", "âge"] t

/-- Age refinement vocabulary. -/
def ruleAge (t : String) : Bool :=
  bmatch ["age", "âge"] t

/-- Price refinement vocabulary. -/
def rulePrice (t : String) : Bool :=
  bmatch ["price", "cost", "salary", "income", "prix", "salaire", "coût"] t

/-- Quantity refinement vocabulary. -/
def ruleQuantity (t : String) : Bool :=
  bmatch ["quantity", "qty", "amount", "quantité"] t

/-- URL vocabulary (textual disjunct of the url rule). -/
def ruleUrlText (t : String) : Bool :=
  bmatch ["url", "website", "site", "link", "homepage", "lien"] t

/-- Color vocabulary (textual disjunct of the color rule). -/
def ruleColorText (t : String) : Bool :=
  bmatch ["color", "colour", "couleur"] t

/-- Credit-card vocabulary. -/
def ruleCreditCard (t : String) : Bool :=
  bmatch ["credit.card", "creditcard", "card.number", "carte.crédit"] t

/-- CVV vocabulary. -/
def ruleCvv (t : String) : Bool :=
  bmatch ["cvv", "cvc", "security.code", "code.sécurité"] t

/-- National-id vocabulary. -/
def ruleSsn (t : String) : Bool :=
  bmatch ["ssn", "social.security", "tax.id", "nas"] t

/-- Free-text/paragraph vocabulary. -/
def ruleParagraph (t : String) : Bool :=
  bmatch ["message", "comment", "description", "notes", "details", "bio", "about",
    "commentaire", "remarques"] t

/-- Pure classification output of `FormDetector.classifyField`. -/
structure ClassificationResult where
  category : String
  subtype : String
  originalType : String
  confidence : ℚ
  detectedFrom : String
deriving DecidableEq

/-- `FormDetector.getDetectionSource`. -/
def getDetectionSource (allText ty : String) : String :=
  let sources : List String :=
    (if ty ≠ "" ∧ ty ≠ "text" then ["input-type"] else [])
      ++ (if strContains allText "name" then ["name-attribute"] else [])
      ++ (if strContains allText "id" then ["id-attribute"] else [])
      ++ (if strContains allText "placeholder" then ["placeholder"] else [])
      ++ (if strContains allText "class" then ["class-name"] else [])
  if sources.length > 0 then String.intercalate ", " sources else "heuristic"

/-- The classifier's view of the native kind:
`element.type ? element.type.toLowerCase() : 'text'`. -/
def tyOf (e : Element) : String :=
  if e.type = "" then "text" else strLower e.type

/-- `FormDetector.classifyField`: the ordered first-match-wins rule
chain over the combined search text, with the native kind appearing as
a disjunct of its rule's condition. -/
def classifyField (e : Element) : ClassificationResult :=
  let ty := tyOf e
  let t := allTextOf e
  let mk : String → String → ℚ → ClassificationResult := fun c s conf =>
    { category := c, subtype := s, originalType := ty, confidence := conf,
      detectedFrom := getDetectionSource t ty }
  if ruleFirstName t then mk "personal" "firstName" (9 / 10)
  else if ruleLastName t then mk "personal" "lastName" (9 / 10)
  else if ruleFullNamePos t && !ruleFullNameNeg t then mk "personal" "fullName" (8 / 10)
  else if ty = "email" || ruleEmailText t then mk "personal" "email" (95 / 100)
  else if rulePhone t then mk "personal" "phone" (9 / 10)
  else if ruleUsername t then mk "personal" "username" (85 / 100)
  else if ty = "password" || rulePasswordText t then mk "personal" "password" (95 / 100)
  else if ruleAddress t then
    mk "address" (if ruleAddress2 t then "address2" else "address1") (9 / 10)
  else if ruleCity t then mk "address" "city" (9 / 10)
  else if ruleState t then mk "address" "state" (9 / 10)
  else if ruleZip t then mk "address" "zipCode" (9 / 10)
  else if ruleCountry t then mk "address" "country" (9 / 10)
  else if ruleCompany t then mk "work" "company" (85 / 100)
  else if ruleJob t then mk "work" "jobTitle" (85 / 100)
  else if ty = "date" || ruleDateText t then
    mk "datetime" (if ruleBirth t then "birthDate" else "date") (9 / 10)
  else if ty = "time" || ruleTimeText t then mk "datetime" "time" (9 / 10)
  else if ty = "number" || ruleNumberText t then
    mk "number"
      (if ruleAge t then "age"
       else if rulePrice t then "price"
       else if ruleQuantity t then "quantity"
       else "number") (8 / 10)
  else if ty = "url" || ruleUrlText t then mk "web" "url" (9 / 10)
  else if ty = "color" || ruleColorText t then mk "web" "color" (9 / 10)
  else if ruleCreditCard t then mk "financial" "creditCard" (9 / 10)
  else if ruleCvv t then mk "financial" "cvv" (9 / 10)
  else if ruleSsn t then mk "financial" "ssn" (9 / 10)
  else if e.tag = "textarea" || ruleParagraph t then mk "text" "paragraph" (8 / 10)
  else if ty = "text" then mk "text" "text" (6 / 10)
  else mk "general" ty (5 / 10)

/-- The class-token list `Array.from(element.classList)` of a raw
`className` string. -/
def classTokens (cn : String) : List String :=
  (strSplitChar cn ' ').filter (fun s => s ≠ "")

/-- The CAPTCHA vocabulary of `isProtectedField`. -/
def captchaClasses : List String :=
  ["captcha", "recaptcha", "g-recaptcha", "hcaptcha"]

/-- The honeypot name vocabulary of `isProtectedField`. -/
def honeypotNames : List String :=
  ["honeypot", "bot-field", "spam-check", "website", "url"]

/-- `FormDetector.isProtectedField`: CAPTCHA class on the control or an
ancestor, geometric/style hiding, or a honeypot name/id. -/
def isProtectedField (e : Element) : Bool :=
  if captchaClasses.any (fun c => (classTokens e.className).contains c) then true
  else if e.ancestorClassName.any
      (fun cn => captchaClasses.any (fun c => (classTokens cn).contains c)) then true
  else if e.styleDisplay = "none" || e.styleVisibility = "hidden"
      || e.styleOpacity = "0" || e.offsetHeight = 0 || e.offsetWidth = 0 then true
  else
    honeypotNames.any (fun nm =>
      strContains (strLower e.name) nm || strContains (strLower e.id) nm)

/-- `FormDetector.isFieldFillable`: disabled/read-only, computed
invisibility, protection and file kind all veto filling. -/
def isFieldFillable (e : Element) : Bool :=
  if e.disabled || e.readOnly then false
  else if e.offsetParentNull && e.styleDisplay ≠ "none" && e.styleVisibility ≠ "hidden"
      && (e.computedDisplay = "none" || e.computedVisibility = "hidden") then false
  else if isProtectedField e then false
  else if e.type = "file" then false
  else true

/-- `FormDetector.getUnfillableReason`. -/
def getUnfillableReason (e : Element) : String :=
  if e.disabled then "Field is disabled"
  else if e.readOnly then "Field is read-only"
  else if e.type = "file" then "File inputs cannot be filled for security"
  else if isProtectedField e then "Protected field (CAPTCHA/honeypot)"
  else if e.offsetParentNull then "Field is hidden"
  else "Unknown reason"

/-- `FormDetector.getFieldType`. -/
def getFieldType (e : Element) : String :=
  if e.tag = "input" then (if e.type = "" then "text" else e.type)
  else if e.tag = "textarea" then "textarea"
  else if e.tag = "select" then (if e.multiple then "select-multiple" else "select-one")
  else "unknown"

/-- Value snapshot taken at detection time (`getFieldValue`). -/
inductive FieldValue where
  | b (checked : Bool)
  | s (value : String)
  | list (values : List String)
deriving DecidableEq

/-- `FormDetector.getFieldValue`. -/
def getFieldValue (e : Element) : FieldValue :=
  let ty := getFieldType e
  if ty = "checkbox" ∨ ty = "radio" then .b e.checked
  else if ty = "select-one" then
    .s (match e.options.get? e.selectedIndex.toNat with
        | some o => if e.selectedIndex ≥ 0 then o.value else ""
        | none => "")
  else if ty = "select-multiple" then
    .list ((e.options.filter (fun o => o.selected)).map (fun o => o.value))
  else .s e.value

/-- Field descriptor produced by `createFieldDescriptor`. -/
structure Desc where
  element : Element
  type : String
  subtype : String
  name : String
  id : String
  label : String
  placeholder : String
  required : Bool
  value : FieldValue
  fillable : Bool
  reason : String
  category : String
  fieldSubtype : String
  confidence : ℚ
  detectedFrom : String
deriving DecidableEq

/-- `FormDetector.createFieldDescriptor`. -/
def createFieldDescriptor (e : Element) : Desc :=
  let c := classifyField e
  let fillable := isFieldFillable e
  { element := e
    type := getFieldType e
    subtype := if e.type = "" then "text" else e.type
    name := e.name
    id := e.id
    label := e.label
    placeholder := e.placeholder
    required := e.required
    value := getFieldValue e
    fillable := fillable
    reason := if fillable then "" else getUnfillableReason e
    category := c.category
    fieldSubtype := c.subtype
    confidence := c.confidence
    detectedFrom := c.detectedFrom }

/-- `FormDetector.detectFormFields` over the flat candidate list the
selector query produces (shadow-root contents are already flattened
into the list, mirroring `detectShadowDOMFields`).  The result is also
what the detector stores in `this.detectedFields`. -/
def detectFormFields (candidates : List Element) : List Desc :=
  (candidates.map createFieldDescriptor).filter (fun d => d.fillable)

/-- `FormDetector.getFillableFieldsCount` over the stored fields. -/
def getFillableFieldsCount (detectedFields : List Desc) : Nat :=
  (detectedFields.filter (fun d => d.fillable)).length

/-- `FormDetector.getProtectedFieldsCount` over the stored fields. -/
def getProtectedFieldsCount (detectedFields : List Desc) : Nat :=
  (detectedFields.filter (fun d => !d.fillable)).length

/-! ### Fill orchestration (`FormFiller.fillField` / `fillAllFields`)

Exceptions are embedded in `Except String`; a JS `try { … } catch` block
becomes `exTry`.  The injected field mapper (and, for the synthetic-data
path, `generateFakeDataForField`, whose output depends on the random
generator) is a function parameter of type
`Desc → Except String (Option JSVal)`: `none` models a `null`/undefined
resolution and `.error` a thrown exception.  The visual-feedback class
toggling and the event dispatching are presentation-only side effects
with no bearing on any verified claim and are not modelled; the timing
delays are cooperative yields with no state. -/

/-- The JS `try`/`catch` combinator. -/
def exTry {α : Type} (x : Except String α) (h : String → Except String α) :
    Except String α :=
  match x with
  | .error e => h e
  | .ok a => .ok a

/-- Mutable bookkeeping of a `FormFiller` instance. -/
structure FillerState where
  filledFields : List Desc := []
  errors : List String := []
deriving DecidableEq

/-- `FormFiller.fillField`: refuse unfillable descriptors, resolve a
value through the mapper, dispatch by type; any exception is caught and
recorded.  Returns the outcome flag, the (possibly updated) control and
the new bookkeeping state. -/
def fillField (mapper : Desc → Except String (Option JSVal)) (fs : FillerState)
    (d : Desc) : Except String (Bool × Element × FillerState) :=
  exTry
    (if d.fillable = false then
      .ok (false, d.element,
        { fs with errors := fs.errors ++ ["Cannot fill field: " ++ d.reason] })
    else
      match mapper d with
      | .error msg => .error msg
      | .ok none => .ok (false, d.element, fs)
      | .ok (some v) =>
          let res := fillByType d.element d.type v
          if res.1 then
            .ok (true, res.2, { fs with filledFields := fs.filledFields ++ [d] })
          else
            .ok (false, res.2, fs))
    (fun msg =>
      .ok (false, d.element,
        { fs with errors := fs.errors ++ ["Error filling field " ++ d.name ++ ": " ++ msg] }))

/-- Options of a batch fill (the progress and per-field callbacks are
external observers returning undefined; they cannot influence the
control flow and are not carried in the model). -/
structure FillOptions where
  delay : Int := 50
  skipErrors : Bool := true
deriving DecidableEq

/-- Aggregate result of one batch fill. -/
structure BatchResult where
  total : Nat
  filled : Nat
  errors : Nat
  success : Bool
deriving DecidableEq

/-- The `for (const fieldDescriptor of fillableFields)` loop body of
`fillAllFields`, with its per-iteration `try`/`catch`: count successes,
stop at the first failure when `skipErrors` is false, record exceptions
as errors. -/
def fillAllGo (mapper : Desc → Except String (Option JSVal)) (skipErrors : Bool) :
    List Desc → Nat → FillerState → Except String (Nat × FillerState)
  | [], cnt, fs => .ok (cnt, fs)
  | d :: rest, cnt, fs =>
      match fillField mapper fs d with
      | .ok (success, _, fs2) =>
          if success then fillAllGo mapper skipErrors rest (cnt + 1) fs2
          else if !skipErrors then .ok (cnt, fs2)
          else fillAllGo mapper skipErrors rest cnt fs2
      | .error msg =>
          let fs2 :=
            { fs with errors := fs.errors ++ ["Error processing field " ++ d.name ++ ": " ++ msg] }
          if !skipErrors then .ok (cnt, fs2)
          else fillAllGo mapper skipErrors rest cnt fs2

/-- `FormFiller.fillAllFields`: filter to fillable descriptors, run the
loop from a reset state and report the aggregate counts. -/
def fillAllFields (mapper : Desc → Except String (Option JSVal))
    (descs : List Desc) (opts : FillOptions) : Except String BatchResult :=
  let fillableFields := descs.filter (fun d => d.fillable)
  match fillAllGo mapper opts.skipErrors fillableFields 0 {} with
  | .ok (cnt, fs) =>
      .ok { total := fillableFields.length, filled := cnt,
            errors := fs.errors.length, success := cnt > 0 }
  | .error msg => .error msg

/-- `FormFiller.fillFieldWithFakeData`: same shape as `fillField`, with
the synthetic generator in place of the mapper. -/
def fillFieldWithFakeData (gen : Desc → Except String (Option JSVal))
    (fs : FillerState) (d : Desc) : Except String (Bool × Element × FillerState) :=
  exTry
    (if d.fillable = false then
      .ok (false, d.element,
        { fs with errors := fs.errors ++ ["Cannot fill field: " ++ d.reason] })
    else
      match gen d with
      | .error msg => .error msg
      | .ok none => .ok (false, d.element, fs)
      | .ok (some v) =>
          let res := fillByType d.element d.type v
          if res.1 then
            .ok (true, res.2, { fs with filledFields := fs.filledFields ++ [d] })
          else
            .ok (false, res.2, fs))
    (fun msg =>
      .ok (false, d.element,
        { fs with errors := fs.errors ++ ["Error filling field " ++ d.name ++ ": " ++ msg] }))

/-- The loop body of `fillAllFieldsWithFakeData`. -/
def fillAllFakeGo (gen : Desc → Except String (Option JSVal)) (skipErrors : Bool) :
    List Desc → Nat → FillerState → Except String (Nat × FillerState)
  | [], cnt, fs => .ok (cnt, fs)
  | d :: rest, cnt, fs =>
      match fillFieldWithFakeData gen fs d with
      | .ok (success, _, fs2) =>
          if success then fillAllFakeGo gen skipErrors rest (cnt + 1) fs2
          else if !skipErrors then .ok (cnt, fs2)
          else fillAllFakeGo gen skipErrors rest cnt fs2
      | .error msg =>
          let fs2 :=
            { fs with errors := fs.errors ++ ["Error processing field " ++ d.name ++ ": " ++ msg] }
          if !skipErrors then .ok (cnt, fs2)
          else fillAllFakeGo gen skipErrors rest cnt fs2

/-- `FormFiller.fillAllFieldsWithFakeData`. -/
def fillAllFieldsWithFakeData (gen : Desc → Except String (Option JSVal))
    (descs : List Desc) (opts : FillOptions) : Except String BatchResult :=
  let fillableFields := descs.filter (fun d => d.fillable)
  match fillAllFakeGo gen opts.skipErrors fillableFields 0 {} with
  | .ok (cnt, fs) =>
      .ok { total := fillableFields.length, filled := cnt,
            errors := fs.errors.length, success := cnt > 0 }
  | .error msg => .error msg

/-! ### Value mapper (`FieldMapper`) -/

/-- Nested user-data tree of the "fill" data contract. -/
inductive DataNode where
  | leaf (v : JSVal)
  | obj (fields : List (String × DataNode))

/-- `FieldMapper.getValueFromPath`: walk the dot-separated path through
nested objects; a missing key, or descending into a non-object, yields
`null`. -/
def walkPath : DataNode → List String → Option DataNode
  | cur, [] => some cur
  | .obj fs, k :: ks =>
      match fs.find? (fun p => p.1 == k) with
      | some p => walkPath p.2 ks
      | none => none
  | .leaf _, _ :: _ => none

/-- Entry point of `getValueFromPath` (the `!path` guard). -/
def getValueFromPath (obj : DataNode) (path : String) : Option DataNode :=
  if path = "" then none
  else walkPath obj (strSplitChar path '.')

/-- `FieldMapper.generateCacheKey`. -/
def generateCacheKey (d : Desc) : String :=
  strLower (d.type ++ "-" ++ d.subtype ++ "-" ++ d.name ++ "-" ++ d.id ++ "-" ++ d.label)

/-- `FieldMapper.shouldFillPassword`: the source returns `false`
unconditionally — filling passwords stays disabled by default. -/
def shouldFillPassword (_d : Desc) : Bool :=
  false

/-- `FieldMapper.determineFieldMapping`.  The non-password branches
(`matchFieldPattern` scoring over the pattern table and the
`analyzeFieldContext` DOM walk) are abstracted as the `nonPassword`
parameter: the verified claim about this function concerns only the
password gate, and its theorem holds for every instantiation of the
remaining branches. -/
def determineFieldMapping (nonPassword : Desc → Option String) (d : Desc) :
    Option String :=
  if d.subtype = "password" then
    if shouldFillPassword d then some "personal.password" else none
  else nonPassword d

/-- `FieldMapper.mapValueToField`: consult the
`(fieldSignature → dataPath)` cache, else derive a mapping, cache it
when found, and read the user data at the resolved path.  Returns the
resolution and the updated cache. -/
def mapValueToField (nonPassword : Desc → Option String)
    (cache : List (String × String)) (d : Desc) (userData : DataNode) :
    Option DataNode × List (String × String) :=
  let key := generateCacheKey d
  match cache.find? (fun p => p.1 == key) with
  | some p => (getValueFromPath userData p.2, cache)
  | none =>
      match determineFieldMapping nonPassword d with
      | some m => (getValueFromPath userData m, cache ++ [(key, m)])
      | none => (none, cache)

/-! ### Synthetic data generator (`FakeDataGenerator.generateCreditCardNumber`) -/

/-- The check-digit loop of `generateCreditCardNumber`: walk the body
digits from the rightmost one with `alternate` initially false, doubling
on alternate positions (`n > 9 ⟹ n % 10 + 1`). -/
def luhnLoopSum : List Nat → Bool → Nat
  | [], _ => 0
  | d :: rest, alt =>
      (if alt then (let n := d * 2; if n > 9 then n % 10 + 1 else n) else d)
        + luhnLoopSum rest (!alt)

/-- Extend the chosen prefix with random digits up to 15 digits
(`while (number.length < 15) number += this.randomInt(0, 9)`); the
random stream is a function parameter, reduced mod 10. -/
def extendTo15 (cur : List Nat) (rand : Nat → Nat) : List Nat :=
  cur ++ (List.range (15 - cur.length)).map (fun i => rand i % 10)

/-- `FakeDataGenerator.generateCreditCardNumber`, digit-list view: build
the 15-digit body, compute the check digit from the loop above, append
it. -/
def generateCreditCardNumber (seed : List Nat) (rand : Nat → Nat) : List Nat :=
  let number := extendTo15 seed rand
  let sum := luhnLoopSum number.reverse false
  let checkDigit := (10 - sum % 10) % 10
  number ++ [checkDigit]

/-- The claim's Luhn validation, written from the spec's words: from the
rightmost digit, double every second digit (subtracting 9 above 9) and
require the sum to be divisible by 10. -/
def luhnSpecSum : List Nat → Bool → Nat
  | [], _ => 0
  | d :: rest, dbl =>
      (if dbl then (let n := d * 2; if n > 9 then n - 9 else n) else d)
        + luhnSpecSum rest (!dbl)

/-- Luhn checksum validity of a digit string (spec-side definition). -/
def luhnValid (ds : List Nat) : Bool :=
  luhnSpecSum ds.reverse false % 10 == 0

/-! ### Concrete controls used by the claim instances -/

/-- A plain fillable text input. -/
def okScanElem : Element :=
  { type := "text", name := "city" }

/-- A disabled text input (rejected by the protection filter). -/
def disabledScanElem : Element :=
  { type := "text", name := "note", disabled := true }

/-- The spec's checkbox whose name contains the email vocabulary. -/
def emailCheckboxElem : Element :=
  { type := "checkbox", name := "email-notifications-checkbox" }

/-- A url-kind control whose name carries first-name vocabulary. -/
def urlFirstNameElem : Element :=
  { type := "url", name := "firstname" }

/-- The spec's example number control (`min=0, max=120, step=1`). -/
def numElem : Element :=
  { type := "number", name := "age", min := some 0, max := some 120, step := .val 1 }

/-- A week-kind control. -/
def weekElem : Element :=
  { type := "week", name := "wk" }

/-- A fillable number control that rejects the value 150
(`max=1`), used to exercise the stop-on-error path. -/
def numFailElem : Element :=
  { type := "number", name := "age", min := some 0, max := some 1 }

/-! ### Theorems -/

/-- C10: the checkbox fill never fails, and its checked-state decision
matches the claim's rule: booleans directly; otherwise the positive
vocabulary, the control's own value, or label containment
(case-insensitive). -/
theorem fillCheckbox_always_succeeds :
    ∀ (e : Element) (v : JSVal),
      (fillCheckbox e v).1 = true ∧
        (fillCheckbox e v).2 =
          { e with checked :=
              match v with
              | .bool b => b
              | _ =>
                  let cv := strLower (jsToString v)
                  ["true", "yes", "on", "1", "checked", "selected"].contains cv
                    || strLower e.value == cv
                    || strContains (strLower e.label) cv } := by
  intro e v
  cases v with
  | bool b => exact ⟨rfl, rfl⟩
  | str s =>
      refine ⟨rfl, ?_⟩
      simp only [fillCheckbox, shouldCheckBox]
      cases h1 : ["true", "yes", "on", "1", "checked", "selected"].contains
          (strLower (jsToString (.str s))) <;>
        cases h2 : strLower e.value == strLower (jsToString (.str s)) <;>
        cases h3 : strContains (strLower e.label) (strLower (jsToString (.str s))) <;>
        simp [h1, h2, h3]
  | num q =>
      refine ⟨rfl, ?_⟩
      simp only [fillCheckbox, shouldCheckBox]
      cases h1 : ["true", "yes", "on", "1", "checked", "selected"].contains
          (strLower (jsToString (.num q))) <;>
        cases h2 : strLower e.value == strLower (jsToString (.num q)) <;>
        cases h3 : strContains (strLower e.label) (strLower (jsToString (.num q))) <;>
        simp [h1, h2, h3]
  | date d =>
      refine ⟨rfl, ?_⟩
      simp only [fillCheckbox, shouldCheckBox]
      cases h1 : ["true", "yes", "on", "1", "checked", "selected"].contains
          (strLower (jsToString (.date d))) <;>
        cases h2 : strLower e.value == strLower (jsToString (.date d)) <;>
        cases h3 : strContains (strLower e.label) (strLower (jsToString (.date d))) <;>
        simp [h1, h2, h3]

/-- C7 (code bug): with prefix `'4'` and every random digit 4, the
generator emits the 16-digit string 4444444444444442, whose
alternating-doubled-digit sum is 94 — it fails the Luhn checksum the
generator's own comments promise.  (The check-digit loop starts its
`alternate` flag at the body's rightmost digit instead of at the final
check digit's position, inverting the doubling phase.) -/
theorem creditCard_luhn_bug :
    generateCreditCardNumber [4] (fun _ => 4)
        = [4, 4, 4, 4, 4, 4, 4, 4, 4, 4, 4, 4, 4, 4, 4, 2]
      ∧ (generateCreditCardNumber [4] (fun _ => 4)).length = 16
      ∧ luhnValid (generateCreditCardNumber [4] (fun _ => 4)) = false := by
  refine ⟨by decide, by decide, by decide⟩

/-- C3 (code bug): detection returns only `fillable=true` descriptors,
but it stores that already-filtered list, so `getProtectedFieldsCount`
is 0 even though one of the two scanned candidates (a disabled input)
was rejected by the filter. -/
theorem detect_protected_count_bug :
    detectFormFields [okScanElem, disabledScanElem] = [createFieldDescriptor okScanElem]
      ∧ (createFieldDescriptor okScanElem).fillable = true
      ∧ (createFieldDescriptor disabledScanElem).fillable = false
      ∧ getProtectedFieldsCount (detectFormFields [okScanElem, disabledScanElem]) = 0
      ∧ (([okScanElem, disabledScanElem].map createFieldDescriptor).filter
          (fun d => !d.fillable)).length = 1 := by
  refine ⟨rfl, rfl, rfl, rfl, rfl⟩

/-- C2 (counterexample): a checkbox named `email-notifications-checkbox`
IS classified as personal/email by the textual email pattern, and a
url-kind control named `firstname` is classified by the first-name text
rule rather than by its native kind — the native kind is not consulted
before textual analysis. -/
theorem classify_kind_first_counterexample :
    emailCheckboxElem.type = "checkbox"
      ∧ (classifyField emailCheckboxElem).category = "personal"
      ∧ (classifyField emailCheckboxElem).subtype = "email"
      ∧ urlFirstNameElem.type = "url"
      ∧ (classifyField urlFirstNameElem).category = "personal"
      ∧ (classifyField urlFirstNameElem).subtype = "firstName" := by
  refine ⟨rfl, rfl, rfl, rfl, rfl, rfl⟩

/-- C1: a disabled or read-only control is never fillable, and
`fillField` on any descriptor with `fillable = false` returns false
without touching the control — it only records the skip reason. -/
theorem fillField_refuses_unfillable :
    (∀ e : Element, e.disabled = true ∨ e.readOnly = true → isFieldFillable e = false)
      ∧ (∀ (mapper : Desc → Except String (Option JSVal)) (fs : FillerState) (d : Desc),
          d.fillable = false →
            fillField mapper fs d
              = .ok (false, d.element,
                  { fs with errors := fs.errors ++ ["Cannot fill field: " ++ d.reason] })) := by
  constructor
  · intro e h
    unfold isFieldFillable
    rcases h with h | h <;> simp [h]
  · intro mapper fs d h
    simp [fillField, exTry, h]

/-- Witness for C1 at a concrete disabled control. -/
theorem fillField_refuses_unfillable_witness :
    isFieldFillable disabledScanElem = false
      ∧ fillField (fun _ => .ok none) {} (createFieldDescriptor disabledScanElem)
          = .ok (false, disabledScanElem,
              { filledFields := [], errors := ["Cannot fill field: Field is disabled"] }) := by
  constructor
  · exact fillField_refuses_unfillable.1 disabledScanElem (Or.inl rfl)
  · have h := fillField_refuses_unfillable.2 (fun _ => .ok none) {}
      (createFieldDescriptor disabledScanElem) rfl
    exact h.trans rfl

/-- C9: password filling is disabled by default
(`shouldFillPassword` is constantly false), so the mapper resolves every
password-subtype descriptor to null without touching the cache — for
any instantiation of the non-password mapping branches — and a null
resolution makes `fillField` skip the field without recording an
error. -/
theorem password_resolves_null :
    (∀ d : Desc, shouldFillPassword d = false)
      ∧ (∀ (nonPassword : Desc → Option String) (cache : List (String × String))
            (d : Desc) (userData : DataNode),
          d.subtype = "password" →
          (∀ p ∈ cache, p.1 ≠ generateCacheKey d) →
          mapValueToField nonPassword cache d userData = (none, cache))
      ∧ (∀ (mapper : Desc → Except String (Option JSVal)) (fs : FillerState) (d : Desc),
          d.fillable = true → mapper d = .ok none →
          fillField mapper fs d = .ok (false, d.element, fs)) := by
  refine ⟨fun _ => rfl, ?_, ?_⟩
  · intro nonPassword cache d userData hsub hkey
    have hfind : cache.find? (fun p => p.1 == generateCacheKey d) = none := by
      rw [List.find?_eq_none]
      intro p hp
      simpa using hkey p hp
    simp [mapValueToField, hfind, determineFieldMapping, hsub, shouldFillPassword]
  · intro mapper fs d hfill hmap
    simp [fillField, exTry, hfill, hmap]

/-- A password-classified descriptor used by the C9 witness. -/
def pwDesc : Desc :=
  createFieldDescriptor { type := "password", name := "user-password" }

/-- Witness for C9: with an empty cache, a fresh password descriptor
resolves to null, and a null resolution is a silent skip. -/
theorem password_resolves_null_witness :
    shouldFillPassword pwDesc = false
      ∧ mapValueToField (fun _ => some "personal.email") [] pwDesc (.obj [])
          = (none, [])
      ∧ fillField (fun _ => .ok none) {} (createFieldDescriptor okScanElem)
          = .ok (false, okScanElem, {}) := by
  refine ⟨password_resolves_null.1 pwDesc, ?_, ?_⟩
  · exact password_resolves_null.2.1 (fun _ => some "personal.email") [] pwDesc (.obj [])
      rfl (by intro p hp; simp at hp)
  · have h := password_resolves_null.2.2 (fun _ => .ok none) {}
      (createFieldDescriptor okScanElem) rfl rfl
    exact h.trans rfl

/-- `exTry` with a handler that always recovers yields a success. -/
lemma exTry_ok {α : Type} (x : Except String α) (h : String → Except String α)
    (hh : ∀ msg, ∃ a, h msg = .ok a) : ∃ a, exTry x h = .ok a := by
  cases x with
  | error e => simpa [exTry] using hh e
  | ok a => exact ⟨a, rfl⟩

/-- `fillField` never surfaces an exception: its whole body is wrapped
in the catch-and-record handler. -/
lemma fillField_isOk (mapper : Desc → Except String (Option JSVal))
    (fs : FillerState) (d : Desc) :
    ∃ r, fillField mapper fs d = .ok r := by
  unfold fillField
  exact exTry_ok _ _ (fun msg => ⟨_, rfl⟩)

/-- Neither does `fillFieldWithFakeData`. -/
lemma fillFieldWithFakeData_isOk (gen : Desc → Except String (Option JSVal))
    (fs : FillerState) (d : Desc) :
    ∃ r, fillFieldWithFakeData gen fs d = .ok r := by
  unfold fillFieldWithFakeData
  exact exTry_ok _ _ (fun msg => ⟨_, rfl⟩)

/-- The user-data fill loop always returns a result. -/
lemma fillAllGo_isOk (mapper : Desc → Except String (Option JSVal)) (se : Bool) :
    ∀ (l : List Desc) (cnt : Nat) (fs : FillerState),
      ∃ r, fillAllGo mapper se l cnt fs = .ok r := by
  intro l
  induction l with
  | nil => intro cnt fs; exact ⟨_, rfl⟩
  | cons d rest ih =>
      intro cnt fs
      obtain ⟨r, hr⟩ := fillField_isOk mapper fs d
      obtain ⟨s, e2, fs2⟩ := r
      unfold fillAllGo
      rw [hr]
      cases s with
      | true => simpa using ih (cnt + 1) fs2
      | false =>
          cases se with
          | false => exact ⟨_, rfl⟩
          | true => simpa using ih cnt fs2

/-- The synthetic-data fill loop always returns a result. -/
lemma fillAllFakeGo_isOk (gen : Desc → Except String (Option JSVal)) (se : Bool) :
    ∀ (l : List Desc) (cnt : Nat) (fs : FillerState),
      ∃ r, fillAllFakeGo gen se l cnt fs = .ok r := by
  intro l
  induction l with
  | nil => intro cnt fs; exact ⟨_, rfl⟩
  | cons d rest ih =>
      intro cnt fs
      obtain ⟨r, hr⟩ := fillFieldWithFakeData_isOk gen fs d
      obtain ⟨s, e2, fs2⟩ := r
      unfold fillAllFakeGo
      rw [hr]
      cases s with
      | true => simpa using ih (cnt + 1) fs2
      | false =>
          cases se with
          | false => exact ⟨_, rfl⟩
          | true => simpa using ih cnt fs2

/-- C4: neither batch entry point ever propagates an exception: for
every descriptor list, mapper/generator behaviour and options, a batch
result comes back, reporting the counts over the fillable
descriptors. -/
theorem fillAll_never_throws :
    (∀ (mapper : Desc → Except String (Option JSVal)) (descs : List Desc)
        (opts : FillOptions),
      ∃ r, fillAllFields mapper descs opts = .ok r
        ∧ r.total = (descs.filter (fun d => d.fillable)).length)
      ∧ (∀ (gen : Desc → Except String (Option JSVal)) (descs : List Desc)
            (opts : FillOptions),
          ∃ r, fillAllFieldsWithFakeData gen descs opts = .ok r
            ∧ r.total = (descs.filter (fun d => d.fillable)).length) := by
  constructor
  · intro mapper descs opts
    obtain ⟨⟨cnt, fs⟩, hr⟩ :=
      fillAllGo_isOk mapper opts.skipErrors (descs.filter (fun d => d.fillable)) 0 {}
    refine ⟨{ total := (descs.filter (fun d => d.fillable)).length, filled := cnt,
              errors := fs.errors.length, success := cnt > 0 }, ?_, rfl⟩
    unfold fillAllFields
    dsimp only
    rw [hr]
  · intro gen descs opts
    obtain ⟨⟨cnt, fs⟩, hr⟩ :=
      fillAllFakeGo_isOk gen opts.skipErrors (descs.filter (fun d => d.fillable)) 0 {}
    refine ⟨{ total := (descs.filter (fun d => d.fillable)).length, filled := cnt,
              errors := fs.errors.length, success := cnt > 0 }, ?_, rfl⟩
    unfold fillAllFieldsWithFakeData
    dsimp only
    rw [hr]

/-- Whether one fill attempt on `d` succeeds: `fillField`'s Boolean
outcome, which depends only on the descriptor and the mapper, never on
the filler's bookkeeping state. -/
def fieldSucceeds (mapper : Desc → Except String (Option JSVal)) (d : Desc) : Bool :=
  d.fillable &&
    (match mapper d with
     | .ok (some v) => (fillByType d.element d.type v).1
     | _ => false)

/-- `fillField` always returns, with `fieldSucceeds` as its Boolean
outcome, from any bookkeeping state. -/
lemma fillField_bool (mapper : Desc → Except String (Option JSVal))
    (fs : FillerState) (d : Desc) :
    ∃ e2 fs2, fillField mapper fs d = .ok (fieldSucceeds mapper d, e2, fs2) := by
  unfold fillField exTry fieldSucceeds
  by_cases h : d.fillable = false
  · simp [h]
  · have h1 : d.fillable = true := by
      cases hb : d.fillable
      · exact absurd hb h
      · rfl
    cases hm : mapper d with
    | error msg => simp [h, h1, hm]
    | ok ov =>
        cases ov with
        | none => simp [h, h1, hm]
        | some v =>
            by_cases hb : (fillByType d.element d.type v).1 = true
            · simp [h, h1, hm, hb]
            · simp [h, h1, hm, Bool.eq_false_iff.mpr hb]

/-- With `skipErrors = false`, the loop runs the all-succeeding prefix,
halts at the first failing descriptor and never reaches the tail: the
success count grows by exactly the prefix length. -/
lemma fillAllGo_stops (mapper : Desc → Except String (Option JSVal)) :
    ∀ (pre : List Desc) (d : Desc) (tail : List Desc) (cnt : Nat) (fs : FillerState),
      (∀ p ∈ pre, fieldSucceeds mapper p = true) →
      fieldSucceeds mapper d = false →
      ∃ fs2, fillAllGo mapper false (pre ++ d :: tail) cnt fs
          = .ok (cnt + pre.length, fs2) := by
  intro pre
  induction pre with
  | nil =>
      intro d tail cnt fs _ hd
      obtain ⟨e2, fs2, hf⟩ := fillField_bool mapper fs d
      rw [hd] at hf
      refine ⟨fs2, ?_⟩
      rw [List.nil_append]
      unfold fillAllGo
      rw [hf]
      simp
  | cons p rest ih =>
      intro d tail cnt fs hpre hd
      obtain ⟨e2, fs2, hf⟩ := fillField_bool mapper fs p
      rw [hpre p (List.mem_cons_self p rest)] at hf
      obtain ⟨fs3, h3⟩ :=
        ih d tail (cnt + 1) fs2 (fun q hq => hpre q (List.mem_cons_of_mem p hq)) hd
      refine ⟨fs3, ?_⟩
      rw [List.cons_append]
      unfold fillAllGo
      rw [hf]
      simp only [if_pos rfl]
      rw [h3]
      have : cnt + 1 + rest.length = cnt + (rest.length + 1) := by omega
      simp [this]

/-- C5: with `skipErrors = false`, a batch over an all-succeeding
fillable prefix followed by a failing fillable descriptor reports
`filled` equal to the prefix length — the failing field is not counted
and iteration stops there, whatever follows. -/
theorem fillAll_stop_on_error :
    ∀ (mapper : Desc → Except String (Option JSVal)) (pre : List Desc) (d : Desc)
      (tail : List Desc) (opts : FillOptions),
      opts.skipErrors = false →
      (∀ p ∈ pre, p.fillable = true) →
      (∀ p ∈ pre, fieldSucceeds mapper p = true) →
      d.fillable = true →
      fieldSucceeds mapper d = false →
      ∃ r, fillAllFields mapper (pre ++ d :: tail) opts = .ok r
        ∧ r.filled = pre.length := by
  intro mapper pre d tail opts hskip hpref hpres hdf hds
  have hfilter : (pre ++ d :: tail).filter (fun x => x.fillable)
      = pre ++ d :: (tail.filter (fun x => x.fillable)) := by
    rw [List.filter_append]
    congr 1
    · exact List.filter_eq_self.mpr (fun a ha => by simpa using hpref a ha)
    · exact List.filter_cons_of_pos (by simpa using hdf)
  obtain ⟨fs2, h2⟩ :=
    fillAllGo_stops mapper pre d (tail.filter (fun x => x.fillable)) 0 {} hpres hds
  refine ⟨{ total := (pre ++ d :: (tail.filter (fun x => x.fillable))).length,
            filled := 0 + pre.length, errors := fs2.errors.length,
            success := decide (0 + pre.length > 0) }, ?_, by simp⟩
  unfold fillAllFields
  dsimp only
  rw [hfilter, hskip, h2]

/-- Witness for C5: a succeeding text field followed by a field whose
resolution is null; the batch stops there with `filled = 1`. -/
theorem fillAll_stop_on_error_witness :
    ∃ r, fillAllFields
        (fun d => if d.type = "number" then .ok none else .ok (some (.str "x")))
        [createFieldDescriptor okScanElem, createFieldDescriptor numFailElem]
        { skipErrors := false } = .ok r
      ∧ r.filled = 1 := by
  have h := fillAll_stop_on_error
      (fun d => if d.type = "number" then .ok none else .ok (some (.str "x")))
      [createFieldDescriptor okScanElem] (createFieldDescriptor numFailElem) []
      { skipErrors := false } rfl
      (by intro p hp; rw [List.mem_singleton] at hp; subst hp; rfl)
      (by intro p hp; rw [List.mem_singleton] at hp; subst hp; rfl)
      rfl rfl
  exact h

/-- The claim's acceptance condition for a number/range fill: the value
respects a present `min`, a present `max`, and — when a numeric `step`
is present — is step-aligned relative to the min (base 0 when the min
is absent); a zero step admits nothing. -/
def numberAccepts (e : Element) (n : ℚ) : Prop :=
  (∀ m, e.min = some m → m ≤ n) ∧ (∀ M, e.max = some M → n ≤ M) ∧
    (∀ s, e.step = .val s → s ≠ 0 ∧ jsMod (n - e.min.getD 0) s = 0)

/-- The acceptance condition is exactly the absence of the three
rejection tests. -/
lemma numberAccepts_iff (e : Element) (n : ℚ) :
    numberAccepts e n ↔
      (minRejects e.min n = false ∧ maxRejects e.max n = false ∧
        stepRejects e.step e.min n = false) := by
  unfold numberAccepts
  cases hmin : e.min <;> cases hmax : e.max <;> cases hstep : e.step <;>
    simp [hmin, hmax, hstep, minRejects, maxRejects, stepRejects, not_lt]

/-- NaN is rejected without touching the control. -/
lemma fillNumberInput_nan (e : Element) (v : JSVal) (h : jsToNumber v = none) :
    fillNumberInput e v = (false, e) := by
  simp [fillNumberInput, h]

/-- An accepted value is written as its decimal string. -/
lemma fillNumberInput_accepts (e : Element) (v : JSVal) (n : ℚ)
    (hv : jsToNumber v = some n) (h : numberAccepts e n) :
    fillNumberInput e v = (true, { e with value := jsNumToString n }) := by
  obtain ⟨h1, h2, h3⟩ := (numberAccepts_iff e n).mp h
  simp [fillNumberInput, hv, h1, h2, h3]

/-- A rejected value leaves the control untouched. -/
lemma fillNumberInput_rejects (e : Element) (v : JSVal) (n : ℚ)
    (hv : jsToNumber v = some n) (h : ¬ numberAccepts e n) :
    fillNumberInput e v = (false, e) := by
  cases hb1 : minRejects e.min n with
  | true => simp [fillNumberInput, hv, hb1]
  | false =>
      cases hb2 : maxRejects e.max n with
      | true => simp [fillNumberInput, hv, hb1, hb2]
      | false =>
          cases hb3 : stepRejects e.step e.min n with
          | true => simp [fillNumberInput, hv, hb1, hb2, hb3]
          | false => exact absurd ((numberAccepts_iff e n).mpr ⟨hb1, hb2, hb3⟩) h

/-- C6: number/range filling rejects non-numeric, out-of-range and
step-misaligned values and otherwise writes the decimal string; on the
spec's `min=0, max=120, step=1` control, 150 is rejected with the value
left unset while 25 is written as "25". -/
theorem fillNumberInput_constraints :
    (∀ (e : Element) (v : JSVal), jsToNumber v = none →
        fillNumberInput e v = (false, e))
      ∧ (∀ (e : Element) (v : JSVal) (n : ℚ), jsToNumber v = some n →
          numberAccepts e n →
          fillNumberInput e v = (true, { e with value := jsNumToString n }))
      ∧ (∀ (e : Element) (v : JSVal) (n : ℚ), jsToNumber v = some n →
          ¬ numberAccepts e n →
          fillNumberInput e v = (false, e))
      ∧ fillNumberInput numElem (.num 150) = (false, numElem)
      ∧ fillNumberInput numElem (.num 25) = (true, { numElem with value := "25" }) := by
  refine ⟨fillNumberInput_nan, fillNumberInput_accepts, fillNumberInput_rejects, ?_, ?_⟩
  · refine fillNumberInput_rejects numElem (.num 150) 150 rfl ?_
    intro h
    have h120 := h.2.1 120 rfl
    norm_num at h120
  · have hacc : numberAccepts numElem 25 := by
      refine ⟨?_, ?_, ?_⟩
      · intro m hm
        have : m = 0 := by simpa [numElem] using hm.symm
        rw [this]; norm_num
      · intro M hM
        have : M = 120 := by simpa [numElem] using hM.symm
        rw [this]; norm_num
      · intro s hs
        have : s = 1 := by simpa [numElem] using hs.symm
        subst this
        refine ⟨one_ne_zero, ?_⟩
        norm_num [numElem, jsMod, ratTrunc]
    have h := fillNumberInput_accepts numElem (.num 25) 25 rfl hacc
    rw [h]
    have h25 : jsNumToString 25 = "25" := by
      unfold jsNumToString
      rw [if_pos (by norm_num : ((25 : ℚ)).den = 1),
        (by norm_num : ((25 : ℚ)).num = 25)]
      rfl
    rw [h25]

/-- Witness for C6 on further concrete inputs: a value below a present
min is rejected; an unconstrained control accepts 7 as "7". -/
theorem fillNumberInput_constraints_witness :
    fillNumberInput { type := "number", min := some 10 } (.num 3)
        = (false, { type := "number", min := some 10 })
      ∧ fillNumberInput { type := "number" } (.num 7)
          = (true, { type := "number", value := "7" }) := by
  constructor
  · refine fillNumberInput_constraints.2.2.1 _ (.num 3) 3 rfl ?_
    intro h
    have h10 := h.1 10 rfl
    norm_num at h10
  · have hacc : numberAccepts { type := "number" } 7 := by
      refine ⟨fun m hm => Option.noConfusion hm, fun M hM => Option.noConfusion hM,
        fun s hs => StepAttr.noConfusion hs⟩
    have h := fillNumberInput_constraints.2.1 { type := "number" } (.num 7) 7 rfl hacc
    rw [h]
    have h7 : jsNumToString 7 = "7" := by
      unfold jsNumToString
      rw [if_pos (by norm_num : ((7 : ℚ)).den = 1),
        (by norm_num : ((7 : ℚ)).num = 7)]
      rfl
    rw [h7]

/-- No textual name rule (the three rules preceding the email rule)
matches the search text. -/
def noNameRules (t : String) : Prop :=
  ruleFirstName t = false ∧ ruleLastName t = false ∧
    (ruleFullNamePos t && !ruleFullNameNeg t) = false

/-- No textual rule strictly before the date rule matches: the name
rules, the textual disjuncts of the email/password rules, and the
phone/username/address/work vocabularies. -/
def noRulesBeforeDate (t : String) : Prop :=
  noNameRules t ∧ ruleEmailText t = false ∧ rulePhone t = false ∧
    ruleUsername t = false ∧ rulePasswordText t = false ∧ ruleAddress t = false ∧
    ruleCity t = false ∧ ruleState t = false ∧ ruleZip t = false ∧
    ruleCountry t = false ∧ ruleCompany t = false ∧ ruleJob t = false

/-- C2 (amended): the native kind decides the exact categories
email/date/time/number/url/color only relative to the ordered rule
chain — for a control of such a kind, the kind alone (no textual match
required) yields the category, provided no earlier rule's textual
pattern fires; textual patterns are not disabled for other kinds. -/
theorem classify_kind_first_amended :
    (∀ e : Element, tyOf e = "email" → noNameRules (allTextOf e) →
        (classifyField e).category = "personal" ∧ (classifyField e).subtype = "email")
      ∧ (∀ e : Element, tyOf e = "date" → noRulesBeforeDate (allTextOf e) →
          (classifyField e).category = "datetime")
      ∧ (∀ e : Element, tyOf e = "time" → noRulesBeforeDate (allTextOf e) →
          ruleDateText (allTextOf e) = false →
          (classifyField e).category = "datetime" ∧ (classifyField e).subtype = "time")
      ∧ (∀ e : Element, tyOf e = "number" → noRulesBeforeDate (allTextOf e) →
          ruleDateText (allTextOf e) = false → ruleTimeText (allTextOf e) = false →
          (classifyField e).category = "number")
      ∧ (∀ e : Element, tyOf e = "url" → noRulesBeforeDate (allTextOf e) →
          ruleDateText (allTextOf e) = false → ruleTimeText (allTextOf e) = false →
          ruleNumberText (allTextOf e) = false →
          (classifyField e).category = "web" ∧ (classifyField e).subtype = "url")
      ∧ (∀ e : Element, tyOf e = "color" → noRulesBeforeDate (allTextOf e) →
          ruleDateText (allTextOf e) = false → ruleTimeText (allTextOf e) = false →
          ruleNumberText (allTextOf e) = false → ruleUrlText (allTextOf e) = false →
          (classifyField e).category = "web" ∧ (classifyField e).subtype = "color") := by
  refine ⟨?_, ?_, ?_, ?_, ?_, ?_⟩
  · intro e hty ⟨h1, h2, h3⟩
    constructor <;> simp [classifyField, hty, h1, h2, h3]
  · intro e hty ⟨⟨h1, h2, h3⟩, h4, h5, h6, h7, h8, h9, h10, h11, h12, h13, h14⟩
    simp [classifyField, hty, h1, h2, h3, h4, h5, h6, h7, h8, h9, h10, h11, h12, h13, h14]
  · intro e hty ⟨⟨h1, h2, h3⟩, h4, h5, h6, h7, h8, h9, h10, h11, h12, h13, h14⟩ hd
    constructor <;>
      simp [classifyField, hty, h1, h2, h3, h4, h5, h6, h7, h8, h9, h10, h11, h12, h13, h14, hd]
  · intro e hty ⟨⟨h1, h2, h3⟩, h4, h5, h6, h7, h8, h9, h10, h11, h12, h13, h14⟩ hd ht
    simp [classifyField, hty, h1, h2, h3, h4, h5, h6, h7, h8, h9, h10, h11, h12, h13, h14, hd, ht]
  · intro e hty ⟨⟨h1, h2, h3⟩, h4, h5, h6, h7, h8, h9, h10, h11, h12, h13, h14⟩ hd ht hn
    constructor <;>
      simp [classifyField, hty, h1, h2, h3, h4, h5, h6, h7, h8, h9, h10, h11, h12, h13, h14,
        hd, ht, hn]
  · intro e hty ⟨⟨h1, h2, h3⟩, h4, h5, h6, h7, h8, h9, h10, h11, h12, h13, h14⟩ hd ht hn hu
    constructor <;>
      simp [classifyField, hty, h1, h2, h3, h4, h5, h6, h7, h8, h9, h10, h11, h12, h13, h14,
        hd, ht, hn, hu]

/-- Witness for C2 (amended) on six concrete kind-bearing controls with
neutral text. -/
theorem classify_kind_first_amended_witness :
    (classifyField { type := "email", name := "zzz" }).subtype = "email"
      ∧ (classifyField { type := "date", name := "zzz" }).category = "datetime"
      ∧ (classifyField { type := "time", name := "zzz" }).subtype = "time"
      ∧ (classifyField { type := "number", name := "zzz" }).category = "number"
      ∧ (classifyField { type := "url", name := "zzz" }).subtype = "url"
      ∧ (classifyField { type := "color", name := "zzz" }).subtype = "color" := by
  refine ⟨(classify_kind_first_amended.1 { type := "email", name := "zzz" } rfl
        ⟨rfl, rfl, rfl⟩).2,
    classify_kind_first_amended.2.1 { type := "date", name := "zzz" } rfl
      ⟨⟨rfl, rfl, rfl⟩, rfl, rfl, rfl, rfl, rfl, rfl, rfl, rfl, rfl, rfl, rfl⟩,
    (classify_kind_first_amended.2.2.1 { type := "time", name := "zzz" } rfl
      ⟨⟨rfl, rfl, rfl⟩, rfl, rfl, rfl, rfl, rfl, rfl, rfl, rfl, rfl, rfl, rfl⟩ rfl).2,
    classify_kind_first_amended.2.2.2.1 { type := "number", name := "zzz" } rfl
      ⟨⟨rfl, rfl, rfl⟩, rfl, rfl, rfl, rfl, rfl, rfl, rfl, rfl, rfl, rfl, rfl⟩ rfl rfl,
    (classify_kind_first_amended.2.2.2.2.1 { type := "url", name := "zzz" } rfl
      ⟨⟨rfl, rfl, rfl⟩, rfl, rfl, rfl, rfl, rfl, rfl, rfl, rfl, rfl, rfl, rfl⟩ rfl rfl rfl).2,
    (classify_kind_first_amended.2.2.2.2.2 { type := "color", name := "zzz" } rfl
      ⟨⟨rfl, rfl, rfl⟩, rfl, rfl, rfl, rfl, rfl, rfl, rfl, rfl, rfl, rfl, rfl⟩
      rfl rfl rfl rfl).2⟩

/-- Evaluate the rational ceiling of an integer divided by 7 from
integer bounds. -/
lemma intCeilDiv7 (a k : Int) (h1 : 7 * k - 7 < a) (h2 : a ≤ 7 * k) :
    Int.ceil ((a : ℚ) / 7) = k := by
  rw [Int.ceil_eq_iff]
  constructor
  · rw [lt_div_iff₀ (by norm_num : (0 : ℚ) < 7)]
    have h3 : ((k : ℤ) - 1) * 7 < a := by omega
    exact_mod_cast h3
  · rw [div_le_iff₀ (by norm_num : (0 : ℚ) < 7)]
    have h3 : a ≤ (k : ℤ) * 7 := by omega
    exact_mod_cast h3

/-- The date used by the C8 instance (2024-01-15, a Monday). -/
def wkDate : JSDate :=
  { year := 2024, month := 1, day := 15 }

/-- C8: filling a week control with 2024-01-15 writes "2024-W03"; and in
general `getWeekNumber` implements the ISO 8601 rule: writing `t` for
the Thursday of the input's week and `ft` for the first Thursday on or
after January 1 of `t`'s civil year (which exists within the first seven
days), the computed week number is `(t - ft) / 7 + 1` — week 1 is the
week containing the year's first Thursday.  The single hypothesis
`yearStartOf t ≤ t` records that January 1 of the Thursday's own civil
year does not come after it, a fact of the calendar arithmetic taken as
an assumption here and discharged concretely in the witness. -/
theorem fillWeek_iso_weekNumber :
    (fillDateTimeInput weekElem "week" (.date wkDate)
        = (true, { weekElem with value := "2024-W03" }))
      ∧ ∀ dt : JSDate,
          yearStartOf (thursdayOf (daysFromCivil dt.year dt.month dt.day))
              ≤ thursdayOf (daysFromCivil dt.year dt.month dt.day) →
          isoDayNum (thursdayOf (daysFromCivil dt.year dt.month dt.day)) = 4
            ∧ ∃ ft : Int,
                yearStartOf (thursdayOf (daysFromCivil dt.year dt.month dt.day)) ≤ ft
                  ∧ ft < yearStartOf (thursdayOf (daysFromCivil dt.year dt.month dt.day)) + 7
                  ∧ isoDayNum ft = 4
                  ∧ (thursdayOf (daysFromCivil dt.year dt.month dt.day) - ft) % 7 = 0
                  ∧ getWeekNumber dt
                      = (thursdayOf (daysFromCivil dt.year dt.month dt.day) - ft) / 7 + 1 := by
  constructor
  · have h18 : thursdayOf (daysFromCivil 2024 1 15)
        - yearStartOf (thursdayOf (daysFromCivil 2024 1 15)) + 1 = 18 := by decide
    have hweek : getWeekNumber wkDate = 3 := by
      unfold getWeekNumber
      dsimp only [wkDate]
      rw [h18]
      exact intCeilDiv7 18 3 (by norm_num) (by norm_num)
    have hfill : fillDateTimeInput weekElem "week" (.date wkDate)
        = (true, { weekElem with
            value := toString (2024 : Int) ++ "-W" ++ pad2 (getWeekNumber wkDate) }) := rfl
    rw [hfill, hweek]
    rfl
  · intro dt hys
    set n := daysFromCivil dt.year dt.month dt.day with hn
    have hth : isoDayNum (thursdayOf n) = 4 := by
      unfold thursdayOf isoDayNum
      dsimp only
      split_ifs <;> omega
    have htm : thursdayOf n % 7 = 0 := by
      unfold thursdayOf isoDayNum
      dsimp only
      split_ifs <;> omega
    refine ⟨hth, yearStartOf (thursdayOf n) + (7 - yearStartOf (thursdayOf n) % 7) % 7,
      by omega, by omega, ?_, by omega, ?_⟩
    · unfold isoDayNum
      dsimp only
      split_ifs <;> omega
    · unfold getWeekNumber
      dsimp only
      rw [← hn]
      exact intCeilDiv7 _ _ (by omega) (by omega)

/-- Witness for C8's general conjunct at the instance date. -/
theorem fillWeek_iso_weekNumber_witness :
    isoDayNum (thursdayOf (daysFromCivil wkDate.year wkDate.month wkDate.day)) = 4
      ∧ ∃ ft : Int,
          yearStartOf (thursdayOf (daysFromCivil wkDate.year wkDate.month wkDate.day)) ≤ ft
            ∧ ft < yearStartOf (thursdayOf (daysFromCivil wkDate.year wkDate.month wkDate.day)) + 7
            ∧ isoDayNum ft = 4
            ∧ (thursdayOf (daysFromCivil wkDate.year wkDate.month wkDate.day) - ft) % 7 = 0
            ∧ getWeekNumber wkDate
                = (thursdayOf (daysFromCivil wkDate.year wkDate.month wkDate.day) - ft) / 7 + 1 :=
  fillWeek_iso_weekNumber.2 wkDate (by decide)

end FormExt
